import Mathlib

/-!
Shallow embedding of the orchestration core of the bowdy-bot repository:
the completion loop (`src/ai/router.ts`), the GroupMe directed-message gate,
ring buffer, delivery queue and chunk splitter (`src/platform/groupme.ts`),
the module registry (`ModuleRegistry`) and the conversation store
(`getConversationHistory` / `saveMessage`).

Strings are modelled as `List Char` where JavaScript index arithmetic
matters (the chunk splitter), and as `String` elsewhere.  Promise rejection
and thrown exceptions are modelled with `Except String`.  Logging,
streaming callbacks, cache-control annotations and the opaque container id
are side channels that do not affect any modelled observable and are
elided.
-/

namespace BowdyBot

/-! ### JavaScript string primitives on `List Char` -/

/-- Whitespace as removed by JavaScript `trimStart`/`trimEnd` (ASCII part). -/
def isJsWs (c : Char) : Bool :=
  c = ' ' || c = '\t' || c = '\n' || c = '\r' || c = '\x0b' || c = '\x0c'

/-- JavaScript `String.prototype.trimStart`. -/
def trimStartL (l : List Char) : List Char := l.dropWhile isJsWs

/-- JavaScript `String.prototype.trimEnd`. -/
def trimEndL (l : List Char) : List Char := (l.reverse.dropWhile isJsWs).reverse

/-- JavaScript `String.prototype.trim` on `String`. -/
def trimString (s : String) : String :=
  String.mk (trimStartL (trimEndL s.data))

/-- JavaScript `String.prototype.toUpperCase` (ASCII) on `String`. -/
def toUpperString (s : String) : String :=
  String.mk (s.data.map Char.toUpper)

/-- Forward scan computing the greatest index `i ≤ limit` at which `sub`
starts in the scanned list; `-1` when there is none. -/
def lastIndexOfGo (sub : List Char) (limit : Nat) : List Char → Nat → Int → Int
  | [], _, best => best
  | c :: rest, i, best =>
    lastIndexOfGo sub limit rest (i + 1)
      (if Nat.ble i limit && sub.isPrefixOf (c :: rest) then (i : Int) else best)

/-- JavaScript `s.lastIndexOf(sub, limit)`: index of the last occurrence of
`sub` starting at or before `limit`, or `-1`. -/
def lastIndexOfL (s sub : List Char) (limit : Nat) : Int :=
  lastIndexOfGo sub limit s 0 (-1)

/-! ### `splitMessage` (src/platform/groupme.ts) -/

def MAX_MESSAGE_LENGTH : Nat := 1000

/-- The boundary search of the `while` body of `splitMessage`:
last `"\n\n"` at or before the limit; else last `". "` (plus one to keep the
period); else last `" "`; else a hard cut at the limit — each candidate
rejected when it falls before half the maximum length. -/
def computeSplitIdx (remaining : List Char) : Int :=
  let m : Int := (MAX_MESSAGE_LENGTH : Int)
  let half : Int := m / 2
  let i1 := lastIndexOfL remaining ['\n', '\n'] MAX_MESSAGE_LENGTH
  let i2 :=
    if i1 < half then
      let p := lastIndexOfL remaining ['.', ' '] MAX_MESSAGE_LENGTH
      if p > 0 then p + 1 else p
    else i1
  let i3 :=
    if i2 < half then lastIndexOfL remaining [' '] MAX_MESSAGE_LENGTH else i2
  if i3 < half then m else i3

/-- The `while (remaining.length > MAX_MESSAGE_LENGTH)` loop of
`splitMessage`, with explicit fuel (each iteration removes at least 500
characters, so `fuel = remaining.length` always suffices). -/
def splitLoop (fuel : Nat) (remaining : List Char) : List (List Char) :=
  if remaining.length > MAX_MESSAGE_LENGTH then
    match fuel with
    | 0 => [remaining]
    | f + 1 =>
      let splitIdx := (computeSplitIdx remaining).toNat
      trimEndL (remaining.take splitIdx) ::
        splitLoop f (trimStartL (remaining.drop splitIdx))
  else if remaining.length > 0 then [remaining] else []

/-- `splitMessage` on `List Char`. -/
def splitMessageL (text : List Char) : List (List Char) :=
  if text.length ≤ MAX_MESSAGE_LENGTH then [text] else splitLoop text.length text

/-- `splitMessage` on `String`. -/
def splitMessage (s : String) : List String :=
  (splitMessageL s.data).map String.mk

/-- Interleaving of chunks with one gap after each chunk:
`c₁ ++ w₁ ++ c₂ ++ w₂ ++ …` (used to state what the splitter preserves). -/
def joinInter : List (List Char) → List (List Char) → List Char
  | [], _ => []
  | _ :: _, [] => []
  | c :: cs, w :: ws => c ++ w ++ joinInter cs ws

/-! ### `FAST_TRIGGERS` regex `/\b(bowdy|bowdey|bowdy bot|bowdey bot)\b/i` -/

/-- JavaScript regex word character `\w` = `[A-Za-z0-9_]`. -/
def isWordChar (c : Char) : Bool := c.isAlpha || c.isDigit || c = '_'

/-- A `\b` boundary holds before the current position given the previous
character (none at the start of the string). -/
def boundaryBefore (prev : Option Char) : Bool :=
  match prev with
  | none => true
  | some c => !isWordChar c

/-- A `\b` boundary holds after a match given the rest of the string. -/
def boundaryAfter : List Char → Bool
  | [] => true
  | c :: _ => !isWordChar c

/-- The four alternatives of the trigger regex (lower case). -/
def triggerWords : List (List Char) :=
  ["bowdy".data, "bowdey".data, "bowdy bot".data, "bowdey bot".data]

/-- Does one of the trigger alternatives match at the current position with
a word boundary after it? -/
def triggerAt (cs : List Char) : Bool :=
  triggerWords.any (fun w => w.isPrefixOf cs && boundaryAfter (cs.drop w.length))

/-- Scan of the (lower-cased) text for a boundary-delimited trigger match. -/
def fastTriggerGo : Option Char → List Char → Bool
  | prev, [] => boundaryBefore prev && triggerAt []
  | prev, c :: rest =>
    (boundaryBefore prev && triggerAt (c :: rest)) || fastTriggerGo (some c) rest

/-- `FAST_TRIGGERS.test(text)`: case-insensitive whole-word match of the
bot's name or an alias anywhere in the text. -/
def fastTriggers (s : List Char) : Bool :=
  fastTriggerGo none (s.map Char.toLower)

/-! ### `ModuleRegistry` (src/modules/registry.ts) -/

/-- Tool inputs are JSON objects; their exact shape is irrelevant to the
loop, which passes them through opaquely. -/
abbrev ToolInput := List (String × String)

structure ToolDef where
  name : String
deriving DecidableEq

/-- A capability provider: its tool schemas and a dispatch-by-name executor.
A thrown/rejected execution is modelled by `Except.error` carrying
`String(err)`; a successful execution returns the serialized result. -/
structure Module where
  name : String
  tools : List ToolDef
  executeTool : String → ToolInput → Except String String

structure ModuleRegistry where
  modules : List Module

/-- The `toolToModule` map after registering `mods` in order: each
`register` call does `toolToModule.set(tool.name, module)`, so the last
registrant owning a name wins. -/
def lookupToolModule (mods : List Module) (name : String) : Option Module :=
  match mods with
  | [] => none
  | m :: rest =>
    match lookupToolModule rest name with
    | some m' => some m'
    | none => if m.tools.any (fun t => t.name == name) then some m else none

/-- `ModuleRegistry.getToolDefinitions`. -/
def getToolDefinitions (reg : ModuleRegistry) : List ToolDef :=
  reg.modules.flatMap (fun m => m.tools)

/-- `ModuleRegistry.executeTool`: unknown tool names throw
`No module found for tool: <name>`. -/
def executeToolReg (reg : ModuleRegistry) (name : String) (input : ToolInput) :
    Except String String :=
  match lookupToolModule reg.modules name with
  | none => Except.error ("No module found for tool: " ++ name)
  | some m => m.executeTool name input

/-! ### `AIRouter.handle` (src/ai/router.ts) -/

inductive StopReason
  | toolUse
  | pauseTurn
  | endTurn
deriving DecidableEq

structure ToolUseBlock where
  id : String
  name : String
  input : ToolInput
deriving DecidableEq

/-- A content block of one completion response. -/
inductive RespBlock
  | text (t : String)
  | toolUse (b : ToolUseBlock)
  | other
deriving DecidableEq

/-- One round of the completion service: the final content blocks, the stop
reason, and the concatenation of the text deltas streamed in this round
(`currentText`).  A deterministic mock service is a function from the
iteration counter to such a response. -/
structure SvcResponse where
  content : List RespBlock
  stop_reason : StopReason
  streamedText : String

/-- The client-side `tool_use` blocks collected from the response content. -/
def toolUseBlocksOf (content : List RespBlock) : List ToolUseBlock :=
  content.filterMap (fun b =>
    match b with
    | RespBlock.toolUse t => some t
    | _ => none)

/-- `JSON.stringify(result)` versus
`JSON.stringify({ error: String(err) })` with `is_error: true`. -/
inductive ToolResultContent
  | ok (json : String)
  | failure (errMsg : String)
deriving DecidableEq

structure ToolResultBlock where
  tool_use_id : String
  content : ToolResultContent
  isError : Bool
deriving DecidableEq

/-- The `try`/`catch` around one `registry.executeTool` call: success is
serialized as a structured result, failure as a structured failure carrying
the error message; neither case escapes the loop. -/
def runTool (reg : ModuleRegistry) (b : ToolUseBlock) : ToolResultBlock :=
  match executeToolReg reg b.name b.input with
  | Except.ok result => ⟨b.id, ToolResultContent.ok result, false⟩
  | Except.error e => ⟨b.id, ToolResultContent.failure e, true⟩

inductive Role
  | user
  | assistant
deriving DecidableEq

/-- An entry of the `messages` array sent to the completion service. -/
inductive MsgParam
  | plain (role : Role) (content : String)
  | userContent (imageUrls : List String) (text : String)
  | assistantBlocks (content : List RespBlock)
  | toolResults (results : List ToolResultBlock)
deriving DecidableEq

/-- The messages appended to the `messages` array by one loop iteration. -/
def roundMsgs (reg : ModuleRegistry) (r : SvcResponse) : List MsgParam :=
  match r.stop_reason with
  | StopReason.toolUse =>
    [MsgParam.assistantBlocks r.content,
     MsgParam.toolResults ((toolUseBlocksOf r.content).map (runTool reg))]
  | StopReason.pauseTurn => [MsgParam.assistantBlocks r.content]
  | StopReason.endTurn => []

/-- The text a loop iteration adds to `finalText`: nothing on a tool round,
the streamed text on a paused or terminal round. -/
def roundText (r : SvcResponse) : String :=
  match r.stop_reason with
  | StopReason.toolUse => ""
  | _ => r.streamedText

/-- The `while (!done)` streaming/tool loop of `AIRouter.handle`, with
explicit fuel.  `i` is the iteration counter indexing the mock service's
responses; the loop returns the accumulated `finalText` and the final
`messages` array, or `none` if the fuel runs out before a terminal stop. -/
def completionLoop (svc : Nat → SvcResponse) (reg : ModuleRegistry) :
    Nat → Nat → List MsgParam → String → Option (String × List MsgParam)
  | 0, _, _, _ => none
  | fuel + 1, i, msgs, finalText =>
    match (svc i).stop_reason with
    | StopReason.toolUse =>
      completionLoop svc reg fuel (i + 1) (msgs ++ roundMsgs reg (svc i))
        finalText
    | StopReason.pauseTurn =>
      completionLoop svc reg fuel (i + 1) (msgs ++ roundMsgs reg (svc i))
        (finalText ++ (svc i).streamedText)
    | StopReason.endTurn => some (finalText ++ (svc i).streamedText, msgs)

structure IncomingMessage where
  platformUserId : String
  platformUsername : String
  text : String
  platform : String
  imageUrls : List String
deriving DecidableEq

structure SaveRec where
  userId : String
  role : Role
  content : String
deriving DecidableEq

/-- The result of `AIRouter.handle`: the text returned to the caller, the
two `saveMessage` calls in order, and the final `messages` array. -/
structure HandleOut where
  responseText : String
  saves : List SaveRec
  messages : List MsgParam
deriving DecidableEq

def FALLBACK_TEXT : String := "I'm not sure how to respond to that."

/-- `AIRouter.handle`: build the message list from the history window plus
the current user content, save the user message, run the completion loop,
substitute the fallback sentence when the accumulated answer is empty, save
the assistant message, and return the response text. -/
def handle (svc : Nat → SvcResponse) (reg : ModuleRegistry)
    (history : List (Role × String)) (msg : IncomingMessage) (fuel : Nat) :
    Option HandleOut :=
  let userText := if msg.text = "" then "What's in this image?" else msg.text
  let msgs0 :=
    history.map (fun h => MsgParam.plain h.1 h.2) ++
      [MsgParam.userContent msg.imageUrls userText]
  match completionLoop svc reg fuel 0 msgs0 "" with
  | none => none
  | some (finalText, msgs) =>
    let responseText := if finalText = "" then FALLBACK_TEXT else finalText
    some
      { responseText := responseText
        saves :=
          [⟨msg.platformUserId, Role.user, msg.text⟩,
           ⟨msg.platformUserId, Role.assistant, responseText⟩]
        messages := msgs }

/-- The text the service accumulates into the final answer over rounds
`i, i+1, …, i+k` (paused and terminal rounds contribute their streamed
text, tool rounds contribute nothing). -/
def accumFrom (svc : Nat → SvcResponse) : Nat → Nat → String
  | i, 0 => roundText (svc i)
  | i, k + 1 => roundText (svc i) ++ accumFrom svc (i + 1) k

/-- The messages appended to the `messages` array over the `k` non-terminal
rounds `i, …, i+k-1`. -/
def msgsFrom (svc : Nat → SvcResponse) (reg : ModuleRegistry) :
    Nat → Nat → List MsgParam
  | _, 0 => []
  | i, k + 1 => roundMsgs reg (svc i) ++ msgsFrom svc reg (i + 1) k

/-! ### Classifier (`classifyMessage`, src/platform/groupme.ts) -/

structure RecentMessage where
  sender : String
  text : String
  isBot : Bool
deriving DecidableEq

def MAX_RECENT_MESSAGES : Nat := 10

/-- `GroupMePlatform.pushRecentMessage`: push, then shift the oldest entry
when the buffer exceeds its capacity of 10. -/
def pushRecentMessage (recent : List RecentMessage) (msg : RecentMessage) :
    List RecentMessage :=
  let r := recent ++ [msg]
  if r.length > MAX_RECENT_MESSAGES then r.drop 1 else r

/-- One labeled context line of the classifier prompt. -/
def classifierLine (m : RecentMessage) : String :=
  (if m.isBot then "[Bowdy Bot]" else "[" ++ m.sender ++ "]") ++ ": " ++ m.text

def classifierContext (recent : List RecentMessage) : String :=
  if recent.length > 0 then
    "\nRecent group chat messages (oldest first):\n" ++
      String.intercalate "\n" (recent.map classifierLine) ++ "\n"
  else ""

def classifierInstructions : String :=
  "You are a classifier for a family group chat. Bowdy Bot is an AI assistant that can check grocery lists, the Kroger cart, calendars/schedules, set reminders, search the web, and answer general knowledge questions.\n\nDetermine if the following message is something Bowdy Bot should respond to, or if it's just regular conversation between family members.\n\nA message IS for the bot if:\n- It asks about or wants to manage a list, grocery cart, calendar, or schedule\n- It asks a question or makes a request that requires information lookup or tools\n- It's a follow-up to a recent bot response (check the conversation context)\n- It directly addresses the bot by name or role\n- When in doubt and the message could reasonably be a request for the bot, say YES\n\nA message is NOT for the bot if:\n- It's clearly casual conversation between family members\n- It's a reaction or response to another human's message\n- It's sharing personal updates or coordinating plans directly between family members\n"

/-- The prompt assembled by `classifyMessage`. -/
def classifierPrompt (text senderName : String) (recent : List RecentMessage) :
    String :=
  classifierInstructions ++ classifierContext recent ++
    "\nCurrent message from " ++ senderName ++ ": \"" ++ text ++ "\"" ++
    "\n\nRespond with exactly \"YES\" or \"NO\"."

/-- A content block of the Haiku classifier response. -/
inductive CBlock
  | text (t : String)
  | other
deriving DecidableEq

/-- `response.content[0]?.type === "text" ? content[0].text.trim().toUpperCase() : "NO"`,
compared against `"YES"`. -/
def parseClassifierResponse (content : List CBlock) : Bool :=
  (match content.head? with
   | some (CBlock.text t) => toUpperString (trimString t)
   | _ => "NO") == "YES"

/-- `classifyMessage`: build the prompt, call the low-cost completion
service (a function from prompt to a response or a thrown error), parse the
answer; any thrown error is caught and yields `false`. -/
def classifyMessage (svc : String → Except String (List CBlock))
    (text senderName : String) (recent : List RecentMessage) : Bool :=
  match svc (classifierPrompt text senderName recent) with
  | Except.error _ => false
  | Except.ok content => parseClassifierResponse content

/-! ### GroupMe webhook gate (`GroupMePlatform.start`, src/platform/groupme.ts) -/

/-- A parsed GroupMe attachment (non-objects and unknown types collapse to
`other`). -/
inductive AttachmentJs
  | mentions (userIds : List String)
  | image (url : String)
  | other
deriving DecidableEq

/-- `isBotMentioned`: falsy `botUserId` yields `false`; otherwise any
`mentions` attachment whose `user_ids` contain the bot's user id. -/
def isBotMentioned (attachments : List AttachmentJs) (botUserId : String) :
    Bool :=
  if botUserId = "" then false
  else
    attachments.any (fun a =>
      match a with
      | AttachmentJs.mentions ids => ids.contains botUserId
      | _ => false)

/-- The fields of a parsed `GroupMeWebhookPayload` the handler reads.
A missing/null `text` is `none`. -/
structure GroupMePayload where
  attachments : List AttachmentJs
  name : String
  sender_id : String
  sender_type : String
  system : Bool
  text : Option String
deriving DecidableEq

/-- JavaScript truthiness test `!payload.text`. -/
def textFalsy (t : Option String) : Bool :=
  match t with
  | none => true
  | some s => s = ""

structure QueueItem where
  senderId : String
  senderName : String
  text : String
  imageUrls : Option (List String)
deriving DecidableEq

/-- The image URLs extracted from the attachments. -/
def imageUrlsOf (attachments : List AttachmentJs) : List String :=
  attachments.filterMap (fun a =>
    match a with
    | AttachmentJs.image u => some u
    | _ => none)

/-- The per-channel state the webhook handler mutates: the recent-message
ring buffer and the pending queue. -/
structure GateState where
  recent : List RecentMessage
  queue : List QueueItem
deriving DecidableEq

structure GateResult where
  recent : List RecentMessage
  queue : List QueueItem
  usedClassifier : Bool
deriving DecidableEq

/-- The pending queue entry built from a payload. -/
def queueItemOf (p : GroupMePayload) : QueueItem :=
  let imageUrls := imageUrlsOf p.attachments
  { senderId := p.sender_id
    senderName := p.name
    text := trimString (p.text.getD "")
    imageUrls := if imageUrls.length > 0 then some imageUrls else none }

/-- One execution of the webhook `req.on("end")` handler on a parsed
payload: drop bot and system messages; drop messages with neither text nor
images; buffer the trimmed text (when nonempty) before gating; then gate by
fast trigger, @mention, or the classifier (the classifier sees the buffer
minus the entry just pushed), and enqueue when directed. -/
def webhookStep (botUserId : String)
    (svc : String → Except String (List CBlock)) (st : GateState)
    (p : GroupMePayload) : GateResult :=
  if p.sender_type == "bot" then ⟨st.recent, st.queue, false⟩
  else if p.system then ⟨st.recent, st.queue, false⟩
  else
    let imageUrls := imageUrlsOf p.attachments
    if textFalsy p.text && imageUrls.isEmpty then ⟨st.recent, st.queue, false⟩
    else
      let rawText := trimString (p.text.getD "")
      let recent1 :=
        if rawText ≠ "" then
          pushRecentMessage st.recent ⟨p.name, rawText, false⟩
        else st.recent
      if fastTriggers rawText.data then
        ⟨recent1, st.queue ++ [queueItemOf p], false⟩
      else if isBotMentioned p.attachments botUserId then
        ⟨recent1, st.queue ++ [queueItemOf p], false⟩
      else if rawText ≠ "" then
        let directed := classifyMessage svc rawText p.name recent1.dropLast
        ⟨recent1, if directed then st.queue ++ [queueItemOf p] else st.queue,
          true⟩
      else ⟨recent1, st.queue, false⟩

/-! ### Delivery queue (`processQueue`, src/platform/groupme.ts) -/

/-- An observable outbound send on the channel, tagged with the queue
entry's text so ordering across entries is visible. -/
inductive SendEv
  | ack (entryText : String)
  | chunk (entryText : String) (chunkText : String)
  | apology (entryText : String)
deriving DecidableEq

/-- The environment one drain iteration runs against: whether the
acknowledgment send resolves, the result (or rejection) of
`handler(message)`, whether the i-th chunk send resolves, and whether the
apology send resolves. -/
structure EntryBehavior where
  ackOk : Bool
  handlerResult : Except String String
  chunkOk : Nat → Bool
  apologyOk : Bool

/-- Send the chunks in order; a rejected send stops the sequence (and the
events after it never happen).  Returns the delivered sends and whether all
succeeded. -/
def sendChunks (entryText : String) (ok : Nat → Bool) :
    Nat → List String → List SendEv × Bool
  | _, [] => ([], true)
  | i, c :: rest =>
    if ok i then
      let (evs, s) := sendChunks entryText ok (i + 1) rest
      (SendEv.chunk entryText c :: evs, s)
    else ([], false)

/-- The body of one iteration of the drain loop: best-effort
acknowledgment, run the handler, split and send the chunks, buffer the bot
reply on success; on any exception send the fixed apology (itself
best-effort).  Returns the delivered sends and the ring-buffer push, if
any. -/
def processEntry (b : EntryBehavior) (item : QueueItem) :
    List SendEv × Option RecentMessage :=
  let ackEvs := if b.ackOk then [SendEv.ack item.text] else []
  let apologyEvs := if b.apologyOk then [SendEv.apology item.text] else []
  match b.handlerResult with
  | Except.error _ => (ackEvs ++ apologyEvs, none)
  | Except.ok responseText =>
    let chunks := splitMessage responseText
    let (chunkEvs, allOk) := sendChunks item.text b.chunkOk 0 chunks
    if allOk then
      (ackEvs ++ chunkEvs,
        some ⟨"Bowdy Bot", responseText.take 500, true⟩)
    else (ackEvs ++ chunkEvs ++ apologyEvs, none)

/-- The drain loop over the queued entries, strictly one at a time.
Returns the channel's send trace and the ring-buffer pushes. -/
def processQueueL (env : QueueItem → EntryBehavior) :
    List QueueItem → List SendEv × List RecentMessage
  | [] => ([], [])
  | item :: rest =>
    let (evs, push) := processEntry (env item) item
    let (evs', pushes) := processQueueL env rest
    (evs ++ evs', push.toList ++ pushes)

/-! ### Conversation store (`getConversationHistory` / `saveMessage`) -/

def MAX_HISTORY : Nat := 30

structure ConversationRow where
  userId : String
  role : Role
  content : String
  createdAt : Nat
deriving DecidableEq

/-- The SQL query of `getConversationHistory`: filter by user, order by
`createdAt` descending, limit 30; then reverse to chronological order. -/
def selectHistoryRows (db : List ConversationRow) (uid : String) :
    List ConversationRow :=
  ((((db.filter (fun r => r.userId == uid)).mergeSort
        (fun a b => Nat.ble b.createdAt a.createdAt)).take MAX_HISTORY)).reverse

/-- `getConversationHistory`: up to 30 most recent rows for the user, in
chronological order, projected to role/content pairs. -/
def getConversationHistory (db : List ConversationRow) (uid : String) :
    List (Role × String) :=
  (selectHistoryRows db uid).map (fun r => (r.role, r.content))

/-! ### Concrete sample inputs used by counterexamples and witnesses -/

/-- A mock service that immediately ends the turn having produced no
text. -/
def svcEmptyEnd : Nat → SvcResponse := fun _ => ⟨[], StopReason.endTurn, ""⟩

/-- A mock service: one tool round (requesting `add_task` and an unknown
tool), then a terminal round with text. -/
def svcToolThenEnd : Nat → SvcResponse := fun n =>
  if n = 0 then
    ⟨[RespBlock.toolUse ⟨"t1", "add_task", [("title", "milk")]⟩,
      RespBlock.toolUse ⟨"t2", "no_such_tool", []⟩],
     StopReason.toolUse, ""⟩
  else ⟨[RespBlock.text "Done!"], StopReason.endTurn, "Done!"⟩

def emptyRegistry : ModuleRegistry := ⟨[]⟩

/-- A provider whose first tool succeeds and whose second rejects. -/
def sampleModule : Module :=
  { name := "tasks"
    tools := [⟨"add_task"⟩, ⟨"broken_tool"⟩]
    executeTool := fun name _ =>
      if name = "add_task" then Except.ok "\x7b\"ok\":true\x7d"
      else Except.error "Error: boom" }

def sampleRegistry : ModuleRegistry := ⟨[sampleModule]⟩

def sampleMsg : IncomingMessage :=
  ⟨"user-1", "Gib", "add milk to the grocery list", "groupme", []⟩

/-- 1000 `a`s followed by `" b"`: the splitter cuts at the space and the
space is trimmed away. -/
def splitInputSpace : List Char := List.replicate 1000 'a' ++ [' ', 'b']

/-- 1000 `a`s followed by `". "`: `lastIndexOf(". ", 1000)` matches at
index 1000, the `+ 1` lands at 1001, and the chunk keeps 1001 characters. -/
def splitInputPeriod : List Char := List.replicate 1000 'a' ++ ['.', ' ']

/-- A classifier service that always rejects (network error / timeout). -/
def classifierSvcFail : String → Except String (List CBlock) :=
  fun _ => Except.error "fetch failed"

/-- A classifier service that always answers YES (to show the buffer and
fast path do not depend on it). -/
def classifierSvcYes : String → Except String (List CBlock) :=
  fun _ => Except.ok [CBlock.text "YES"]

def emptyGateState : GateState := ⟨[], []⟩

/-- A delivered message with an image attachment and no text: neither
bot-authored nor a system notification, yet never buffered. -/
def payloadImageOnly : GroupMePayload :=
  { attachments := [AttachmentJs.image "https://i.groupme.com/pic.jpg"]
    name := "Carol"
    sender_id := "30001"
    sender_type := "user"
    system := false
    text := none }

/-- A plain group message addressing the bot by name in mixed case. -/
def payloadFastTrigger : GroupMePayload :=
  { attachments := []
    name := "Dave"
    sender_id := "30002"
    sender_type := "user"
    system := false
    text := some "Hey BoWdY, what's on the calendar?" }

/-- A plain group message that does not mention the bot and carries no
mention attachment, so it falls through to the classifier. -/
def payloadPlainChat : GroupMePayload :=
  { attachments := []
    name := "Erin"
    sender_id := "30003"
    sender_type := "user"
    system := false
    text := some "see you at five" }

/-- A message authored by the assistant itself (`sender_type: "bot"`). -/
def payloadBot : GroupMePayload :=
  { attachments := []
    name := "Bowdy Bot"
    sender_id := "90001"
    sender_type := "bot"
    system := false
    text := some "On it..." }

/-- Three queued entries; processing the second one rejects. -/
def entryA : QueueItem := ⟨"30001", "Carol", "first message", none⟩
def entryB : QueueItem := ⟨"30002", "Dave", "second message", none⟩
def entryC : QueueItem := ⟨"30003", "Erin", "third message", none⟩

def sampleEnv : QueueItem → EntryBehavior := fun item =>
  { ackOk := true
    handlerResult :=
      if item.text = "second message" then Except.error "Error: handler blew up"
      else Except.ok ("reply to " ++ item.text)
    chunkOk := fun _ => true
    apologyOk := true }

/-- A conversation table holding rows for two users, stored out of
chronological order. -/
def sampleDb : List ConversationRow :=
  [⟨"user-1", Role.assistant, "Sure thing.", 5⟩,
   ⟨"user-2", Role.user, "what's for dinner", 9⟩,
   ⟨"user-1", Role.user, "add milk", 4⟩,
   ⟨"user-1", Role.user, "thanks", 8⟩,
   ⟨"user-1", Role.assistant, "Anytime!", 9⟩]

/-! ### Characterization of the completion loop -/

/-- When the first terminal stop condition appears at round `i + k`, the
loop consumes exactly rounds `i, …, i + k`, accumulates the paused and
terminal rounds' text, and appends each round's messages, for any
sufficient fuel. -/
theorem completionLoop_eq (svc : Nat → SvcResponse) (reg : ModuleRegistry) :
    ∀ (k i fuel : Nat) (msgs : List MsgParam) (ft : String),
      (∀ j, j < k → (svc (i + j)).stop_reason ≠ StopReason.endTurn) →
      (svc (i + k)).stop_reason = StopReason.endTurn →
      k < fuel →
      completionLoop svc reg fuel i msgs ft =
        some (ft ++ accumFrom svc i k, msgs ++ msgsFrom svc reg i k) := by
  intro k
  induction k with
  | zero =>
    intro i fuel msgs ft _ hterm hf
    obtain ⟨f, rfl⟩ : ∃ f, fuel = f + 1 := ⟨fuel - 1, by omega⟩
    rw [Nat.add_zero] at hterm
    simp only [completionLoop, hterm, accumFrom, roundText, msgsFrom,
      List.append_nil]
  | succ k ih =>
    intro i fuel msgs ft hprev hterm hf
    obtain ⟨f, rfl⟩ : ∃ f, fuel = f + 1 := ⟨fuel - 1, by omega⟩
    have h0 : (svc i).stop_reason ≠ StopReason.endTurn := by
      have := hprev 0 (Nat.succ_pos k)
      simpa using this
    have hterm' : (svc (i + 1 + k)).stop_reason = StopReason.endTurn := by
      have he : i + 1 + k = i + (k + 1) := by omega
      rw [he]; exact hterm
    have hprev' : ∀ j, j < k →
        (svc (i + 1 + j)).stop_reason ≠ StopReason.endTurn := by
      intro j hj
      have he : i + 1 + j = i + (j + 1) := by omega
      rw [he]; exact hprev (j + 1) (by omega)
    have hf' : k < f := by omega
    cases hs : (svc i).stop_reason with
    | endTurn => exact absurd hs h0
    | toolUse =>
      simp only [completionLoop, hs]
      rw [ih (i + 1) f (msgs ++ roundMsgs reg (svc i)) ft hprev' hterm' hf']
      have haccum : accumFrom svc i (k + 1) = accumFrom svc (i + 1) k := by
        simp [accumFrom, roundText, hs]
      simp [haccum, msgsFrom, List.append_assoc]
    | pauseTurn =>
      simp only [completionLoop, hs]
      rw [ih (i + 1) f (msgs ++ roundMsgs reg (svc i))
        (ft ++ (svc i).streamedText) hprev' hterm' hf']
      have haccum : ft ++ accumFrom svc i (k + 1) =
          (ft ++ (svc i).streamedText) ++ accumFrom svc (i + 1) k := by
        simp [accumFrom, roundText, hs, String.append_assoc]
      simp [haccum, msgsFrom, List.append_assoc]

/-- Each tool round's result message appears among the messages the loop
appends. -/
theorem toolResults_mem_msgsFrom (svc : Nat → SvcResponse)
    (reg : ModuleRegistry) :
    ∀ (k i j : Nat), j < k →
      (svc (i + j)).stop_reason = StopReason.toolUse →
      MsgParam.toolResults
          ((toolUseBlocksOf (svc (i + j)).content).map (runTool reg)) ∈
        msgsFrom svc reg i k := by
  intro k
  induction k with
  | zero => intro i j hj _; omega
  | succ k ih =>
    intro i j hj hstop
    cases j with
    | zero =>
      rw [Nat.add_zero] at hstop
      rw [Nat.add_zero]
      simp [msgsFrom, roundMsgs, hstop]
    | succ j =>
      have hstop' : (svc (i + 1 + j)).stop_reason = StopReason.toolUse := by
        have he : i + 1 + j = i + (j + 1) := by omega
        rw [he]; exact hstop
      have hmem := ih (i + 1) j (by omega) hstop'
      have he : i + 1 + j = i + (j + 1) := by omega
      rw [he] at hmem
      simp only [msgsFrom]
      exact List.mem_append_right _ hmem

/-- Full characterization of `handle` when the mock service's first
terminal stop condition appears at round `N`. -/
theorem handle_eq_of_firstTerminal (svc : Nat → SvcResponse)
    (reg : ModuleRegistry) (history : List (Role × String))
    (msg : IncomingMessage) (N : Nat)
    (hprev : ∀ j, j < N → (svc j).stop_reason ≠ StopReason.endTurn)
    (hterm : (svc N).stop_reason = StopReason.endTurn) :
    handle svc reg history msg (N + 1) =
      some
        { responseText :=
            if accumFrom svc 0 N = "" then FALLBACK_TEXT
            else accumFrom svc 0 N
          saves :=
            [⟨msg.platformUserId, Role.user, msg.text⟩,
             ⟨msg.platformUserId, Role.assistant,
              if accumFrom svc 0 N = "" then FALLBACK_TEXT
              else accumFrom svc 0 N⟩]
          messages :=
            (history.map (fun h => MsgParam.plain h.1 h.2) ++
              [MsgParam.userContent msg.imageUrls
                (if msg.text = "" then "What's in this image?"
                 else msg.text)]) ++
              msgsFrom svc reg 0 N } := by
  have hloop := completionLoop_eq svc reg N 0 (N + 1)
    (history.map (fun h => MsgParam.plain h.1 h.2) ++
      [MsgParam.userContent msg.imageUrls
        (if msg.text = "" then "What's in this image?" else msg.text)]) ""
    (fun j hj => by simpa using hprev j hj) (by simpa using hterm)
    (by omega)
  simp only [handle, hloop, String.empty_append]

/-! ### Claim C1 -/

/-- C1 counterexample: a service whose very first response is terminal with
empty accumulated text makes `handle` return the fixed fallback sentence,
which differs from the service's (empty) accumulated text — the claim's
equality fails at this input. -/
theorem C1_counterexample :
    (handle svcEmptyEnd emptyRegistry [] sampleMsg 1).map
        HandleOut.responseText ≠
      some (accumFrom svcEmptyEnd 0 0) := by decide

/-- C1 (amended): when the mock service's first terminal stop condition
(neither tool-calls-requested nor paused) appears after finitely many
iterations, `AIRouter.handle` terminates, and the text it returns equals
the service's final accumulated text across those iterations whenever that
text is nonempty; when it is empty the fixed fallback sentence is returned
in its place. -/
theorem C1_loop_terminates_final_text (svc : Nat → SvcResponse)
    (reg : ModuleRegistry) (history : List (Role × String))
    (msg : IncomingMessage) (N : Nat)
    (hprev : ∀ j, j < N → (svc j).stop_reason ≠ StopReason.endTurn)
    (hterm : (svc N).stop_reason = StopReason.endTurn) :
    ∃ out, handle svc reg history msg (N + 1) = some out ∧
      out.responseText =
        (if accumFrom svc 0 N = "" then FALLBACK_TEXT
         else accumFrom svc 0 N) :=
  ⟨_, handle_eq_of_firstTerminal svc reg history msg N hprev hterm, rfl⟩

/-- C1 witness: a concrete service with one tool round followed by a
terminal round. -/
theorem C1_witness :
    ∃ out, handle svcToolThenEnd sampleRegistry [] sampleMsg 2 = some out ∧
      out.responseText =
        (if accumFrom svcToolThenEnd 0 1 = "" then FALLBACK_TEXT
         else accumFrom svcToolThenEnd 0 1) :=
  C1_loop_terminates_final_text svcToolThenEnd sampleRegistry [] sampleMsg 1
    (by decide) (by decide)

/-! ### Claim C2 -/

/-- C2: for every tool invocation requested during a completion round —
including names owned by no registered provider and executors that
throw/reject — the loop serializes a structured failure carrying the error
message instead of aborting: the loop still reaches DONE and persists an
assistant message. -/
theorem C2_tool_failure_serialized (svc : Nat → SvcResponse)
    (reg : ModuleRegistry) (history : List (Role × String))
    (msg : IncomingMessage) (N i : Nat)
    (hprev : ∀ j, j < N → (svc j).stop_reason ≠ StopReason.endTurn)
    (hterm : (svc N).stop_reason = StopReason.endTurn)
    (hi : i < N)
    (hstop : (svc i).stop_reason = StopReason.toolUse) :
    ∃ out, handle svc reg history msg (N + 1) = some out ∧
      MsgParam.toolResults
          ((toolUseBlocksOf (svc i).content).map (runTool reg)) ∈
        out.messages ∧
      (∀ b : ToolUseBlock, ∀ e : String,
          executeToolReg reg b.name b.input = Except.error e →
          runTool reg b = ⟨b.id, ToolResultContent.failure e, true⟩) ∧
      (∀ b : ToolUseBlock, lookupToolModule reg.modules b.name = none →
          runTool reg b =
            ⟨b.id,
             ToolResultContent.failure
               ("No module found for tool: " ++ b.name),
             true⟩) ∧
      out.saves.getLast? =
        some ⟨msg.platformUserId, Role.assistant, out.responseText⟩ := by
  refine ⟨_, handle_eq_of_firstTerminal svc reg history msg N hprev hterm,
    ?_, ?_, ?_, ?_⟩
  · apply List.mem_append_right
    have h := toolResults_mem_msgsFrom svc reg N 0 i hi
      (by simpa using hstop)
    simpa using h
  · intro b e he
    simp [runTool, he]
  · intro b hn
    simp [runTool, executeToolReg, hn]
  · rfl

/-- C2 witness: the concrete service requests `add_task` (owned, succeeds)
and `no_such_tool` (unknown) in its tool round. -/
theorem C2_witness :
    ∃ out,
      handle svcToolThenEnd sampleRegistry [] sampleMsg 2 = some out ∧
      MsgParam.toolResults
          ((toolUseBlocksOf (svcToolThenEnd 0).content).map
            (runTool sampleRegistry)) ∈
        out.messages ∧
      (∀ b : ToolUseBlock, ∀ e : String,
          executeToolReg sampleRegistry b.name b.input = Except.error e →
          runTool sampleRegistry b =
            ⟨b.id, ToolResultContent.failure e, true⟩) ∧
      (∀ b : ToolUseBlock,
          lookupToolModule sampleRegistry.modules b.name = none →
          runTool sampleRegistry b =
            ⟨b.id,
             ToolResultContent.failure
               ("No module found for tool: " ++ b.name),
             true⟩) ∧
      out.saves.getLast? =
        some ⟨sampleMsg.platformUserId, Role.assistant, out.responseText⟩ :=
  C2_tool_failure_serialized svcToolThenEnd sampleRegistry [] sampleMsg 1 0
    (by decide) (by decide) (by decide) (by decide)

/-! ### Claim C10 -/

/-- C10: every terminating turn persists exactly two new conversation
entries for the user — the original inbound text with role `user`, then the
final answer with role `assistant` — and when the accumulated final answer
is empty the fixed fallback sentence is returned and persisted in its
place. -/
theorem C10_done_persists_two_entries (svc : Nat → SvcResponse)
    (reg : ModuleRegistry) (history : List (Role × String))
    (msg : IncomingMessage) (N : Nat)
    (hprev : ∀ j, j < N → (svc j).stop_reason ≠ StopReason.endTurn)
    (hterm : (svc N).stop_reason = StopReason.endTurn) :
    ∃ out, handle svc reg history msg (N + 1) = some out ∧
      out.saves =
        [⟨msg.platformUserId, Role.user, msg.text⟩,
         ⟨msg.platformUserId, Role.assistant, out.responseText⟩] ∧
      (accumFrom svc 0 N = "" → out.responseText = FALLBACK_TEXT) := by
  refine ⟨_, handle_eq_of_firstTerminal svc reg history msg N hprev hterm,
    rfl, ?_⟩
  intro h
  simp [h]

/-! ### Splitter lemmas (claims C5, C6) -/

/-- `trimEnd` splits a list into its trimmed part and a trailing gap. -/
theorem trimEndL_decomp (l : List Char) :
    trimEndL l ++ (l.reverse.takeWhile isJsWs).reverse = l := by
  rw [trimEndL, ← List.reverse_append, List.takeWhile_append_dropWhile,
    List.reverse_reverse]

theorem mem_trimEnd_gap {l : List Char} {c : Char}
    (h : c ∈ (l.reverse.takeWhile isJsWs).reverse) : isJsWs c = true := by
  rw [List.mem_reverse] at h
  exact List.mem_takeWhile_imp h

/-- `trimStart` splits a list into a leading gap and its trimmed part. -/
theorem trimStartL_decomp (l : List Char) :
    l.takeWhile isJsWs ++ trimStartL l = l := by
  rw [trimStartL]
  exact List.takeWhile_append_dropWhile isJsWs l

/-- Every run of the splitter loop reproduces its input as its chunks
interleaved with whitespace-only gaps. -/
theorem splitLoop_interleave (fuel : Nat) : ∀ (r : List Char),
    ∃ ws, (splitLoop fuel r).length = ws.length ∧
      (∀ w ∈ ws, ∀ c ∈ w, isJsWs c = true) ∧
      joinInter (splitLoop fuel r) ws = r := by
  induction fuel with
  | zero =>
    intro r
    simp only [splitLoop]
    by_cases h : r.length > MAX_MESSAGE_LENGTH
    · simp only [if_pos h]
      exact ⟨[[]], by simp [joinInter]⟩
    · simp only [if_neg h]
      by_cases h0 : r.length > 0
      · simp only [if_pos h0]
        exact ⟨[[]], by simp [joinInter]⟩
      · simp only [if_neg h0]
        have hr : r = [] := List.eq_nil_of_length_eq_zero (by omega)
        subst hr
        exact ⟨[], by simp [joinInter]⟩
  | succ f ih =>
    intro r
    by_cases h : r.length > MAX_MESSAGE_LENGTH
    · obtain ⟨ws', hlen, hws, hjoin⟩ :=
        ih (trimStartL (r.drop (computeSplitIdx r).toNat))
      refine ⟨(((r.take (computeSplitIdx r).toNat).reverse.takeWhile
            isJsWs).reverse ++
          (r.drop (computeSplitIdx r).toNat).takeWhile isJsWs) :: ws',
        ?_, ?_, ?_⟩
      · simp [splitLoop, if_pos h, hlen]
      · intro w hw c hc
        rcases List.mem_cons.mp hw with hw | hw
        · subst hw
          rcases List.mem_append.mp hc with hc | hc
          · exact mem_trimEnd_gap hc
          · exact List.mem_takeWhile_imp hc
        · exact hws w hw c hc
      · have hE := trimEndL_decomp (r.take (computeSplitIdx r).toNat)
        have hS := trimStartL_decomp (r.drop (computeSplitIdx r).toNat)
        simp only [splitLoop, if_pos h, joinInter, hjoin]
        conv_rhs =>
          rw [← List.take_append_drop (computeSplitIdx r).toNat r, ← hE, ← hS]
        simp [List.append_assoc]
    · simp only [splitLoop, if_neg h]
      by_cases h0 : r.length > 0
      · simp only [if_pos h0]
        exact ⟨[[]], by simp [joinInter]⟩
      · simp only [if_neg h0]
        have hr : r = [] := List.eq_nil_of_length_eq_zero (by omega)
        subst hr
        exact ⟨[], by simp [joinInter]⟩

/-! ### Claim C5 -/

set_option maxRecDepth 8000 in
/-- C5 counterexample: for 1000 `a`s followed by `" b"`, the splitter cuts
at the space and trims it away, so concatenating the chunks does not
reconstruct the input. -/
theorem C5_counterexample :
    (splitMessageL splitInputSpace).flatten ≠ splitInputSpace := by
  intro h
  have h3 : (splitMessageL splitInputSpace).flatten.length =
      splitInputSpace.length := by rw [h]
  have h1 : (splitMessageL splitInputSpace).flatten.length = 1001 := by decide
  have h2 : splitInputSpace.length = 1002 := by decide
  omega

/-- C5 (amended): concatenating all chunks, in order, reconstructs the
original text up to whitespace removed at the chunk boundaries: the input
is exactly the chunks interleaved with (possibly empty) whitespace-only
gaps, one gap after each chunk. -/
theorem C5_roundtrip_up_to_whitespace (t : List Char) :
    ∃ ws, (splitMessageL t).length = ws.length ∧
      (∀ w ∈ ws, ∀ c ∈ w, isJsWs c = true) ∧
      joinInter (splitMessageL t) ws = t := by
  unfold splitMessageL
  by_cases h : t.length ≤ MAX_MESSAGE_LENGTH
  · simp only [if_pos h]
    exact ⟨[[]], by simp [joinInter]⟩
  · simp only [if_neg h]
    exact splitLoop_interleave t.length t

/-- C5 amended-claim witness at a concrete input. -/
theorem C5_witness :
    ∃ ws, (splitMessageL "hello".data).length = ws.length ∧
      (∀ w ∈ ws, ∀ c ∈ w, isJsWs c = true) ∧
      joinInter (splitMessageL "hello".data) ws = "hello".data :=
  C5_roundtrip_up_to_whitespace "hello".data

/-! ### Claim C6 -/

set_option maxRecDepth 8000 in
/-- C6: the code violates the chunk bound.  On 1000 `a`s followed by
`". "`, `lastIndexOf(". ", MAX_MESSAGE_LENGTH)` matches at index 1000 and
the `+ 1` adjustment yields a split index of 1001, so the single produced
chunk has 1001 characters — above `MAX_MESSAGE_LENGTH = 1000`. -/
theorem C6_overlong_chunk_eval :
    (splitMessageL splitInputPeriod).map List.length = [1001] ∧
      MAX_MESSAGE_LENGTH = 1000 := by
  constructor
  · decide
  · rfl

/-- C10 witness: a service that terminates immediately with empty text, so
the fallback sentence is persisted as the assistant entry. -/
theorem C10_witness :
    ∃ out, handle svcEmptyEnd emptyRegistry [] sampleMsg 1 = some out ∧
      out.saves =
        [⟨sampleMsg.platformUserId, Role.user, sampleMsg.text⟩,
         ⟨sampleMsg.platformUserId, Role.assistant, out.responseText⟩] ∧
      (accumFrom svcEmptyEnd 0 0 = "" → out.responseText = FALLBACK_TEXT) :=
  C10_done_persists_two_entries svcEmptyEnd emptyRegistry [] sampleMsg 0
    (by decide) (by decide)

/-! ### Gate lemmas (claims C3, C4, C9) -/

/-- For a message that is not bot-authored, not a system notification, and
not dropped for lacking both text and images, the ring buffer after the
webhook handler is updated exactly when the trimmed text is nonempty — the
same in every gate branch, whatever the classifier does. -/
theorem webhookStep_recent_cases (botUserId : String)
    (svc : String → Except String (List CBlock)) (st : GateState)
    (p : GroupMePayload)
    (hb : (p.sender_type == "bot") = false) (hs : p.system = false)
    (hdrop : (textFalsy p.text && (imageUrlsOf p.attachments).isEmpty) =
      false) :
    (webhookStep botUserId svc st p).recent =
      (if trimString (p.text.getD "") ≠ "" then
        pushRecentMessage st.recent ⟨p.name, trimString (p.text.getD ""), false⟩
      else st.recent) := by
  simp only [webhookStep, hb, hs, hdrop, Bool.false_eq_true, if_false]
  by_cases hft : fastTriggers (trimString (p.text.getD "")).data
  · simp [hft]
  · by_cases hm : isBotMentioned p.attachments botUserId
    · simp [hft, hm]
    · by_cases hr : trimString (p.text.getD "") ≠ ""
      · simp [hft, hm, hr]
      · simp [hft, hm, hr]

/-! ### Claim C3 -/

/-- C3 counterexample: an inbound message with an image attachment and no
text is delivered, is neither bot-authored nor a system notification, yet
is never appended to the ring buffer — the claimed "if" direction fails. -/
theorem C3_counterexample :
    (webhookStep "40000000" classifierSvcYes emptyGateState
        payloadImageOnly).recent = [] ∧
      payloadImageOnly.sender_type ≠ "bot" ∧
      payloadImageOnly.system = false := by
  refine ⟨rfl, ?_, rfl⟩
  decide

/-- C3 (amended): a delivered message is appended to the per-channel ring
buffer — before the gate is evaluated and regardless of the gate's or
classifier's outcome — if and only if it is not authored by the assistant,
not a channel-system notification, and its trimmed text is nonempty;
bot-authored and system messages never change the buffer or the queue. -/
theorem C3_buffering_iff (botUserId : String)
    (svc : String → Except String (List CBlock)) (st : GateState)
    (p : GroupMePayload) :
    ((webhookStep botUserId svc st p).recent =
      if p.sender_type ≠ "bot" ∧ p.system = false ∧ trimString (p.text.getD "") ≠ ""
      then pushRecentMessage st.recent ⟨p.name, trimString (p.text.getD ""), false⟩
      else st.recent) ∧
    (p.sender_type = "bot" ∨ p.system = true →
      (webhookStep botUserId svc st p).recent = st.recent ∧
      (webhookStep botUserId svc st p).queue = st.queue) := by
  constructor
  · by_cases hb : p.sender_type = "bot"
    · simp [webhookStep, hb]
    · by_cases hs : p.system
      · simp [webhookStep, hb, hs]
      · have hb' : (p.sender_type == "bot") = false := by simp [hb]
        have hs' : p.system = false := by simpa using hs
        by_cases hdrop :
            (textFalsy p.text && (imageUrlsOf p.attachments).isEmpty) = true
        · -- dropped for having neither text nor images: buffer unchanged,
          -- and the trimmed text is empty, so the iff's condition is false
          have ht : trimString (p.text.getD "") = "" := by
            cases hp : p.text with
            | none => decide
            | some s =>
              rw [hp] at hdrop
              simp [textFalsy] at hdrop
              simp [hdrop.1]
              decide
          simp [webhookStep, hb', hs', hdrop, ht, hb, hs]
        · rw [webhookStep_recent_cases botUserId svc st p hb' hs'
            (by simpa using hdrop)]
          by_cases hr : trimString (p.text.getD "") = ""
          · simp [hr, hb, hs]
          · simp [hr, hb, hs']
  · intro h
    rcases h with h | h
    · have hb' : (p.sender_type == "bot") = true := by simp [h]
      constructor <;> simp [webhookStep, hb']
    · by_cases hb : (p.sender_type == "bot") = true
      · constructor <;> simp [webhookStep, hb]
      · have hb' : (p.sender_type == "bot") = false := by
          simpa using hb
        constructor <;> simp [webhookStep, hb', h]

/-- C3 amended-claim witness: a bot-authored message leaves buffer and
queue untouched, and the buffering equation holds for it. -/
theorem C3_witness :
    ((webhookStep "40000000" classifierSvcYes emptyGateState
        payloadBot).recent =
      if payloadBot.sender_type ≠ "bot" ∧ payloadBot.system = false ∧
          trimString (payloadBot.text.getD "") ≠ ""
      then pushRecentMessage emptyGateState.recent
        ⟨payloadBot.name, trimString (payloadBot.text.getD ""), false⟩
      else emptyGateState.recent) ∧
    ((webhookStep "40000000" classifierSvcYes emptyGateState
        payloadBot).recent = emptyGateState.recent ∧
      (webhookStep "40000000" classifierSvcYes emptyGateState
        payloadBot).queue = emptyGateState.queue) :=
  ⟨(C3_buffering_iff "40000000" classifierSvcYes emptyGateState
      payloadBot).1,
   (C3_buffering_iff "40000000" classifierSvcYes emptyGateState
      payloadBot).2 (Or.inl rfl)⟩

/-! ### Claim C4 -/

/-- C4: a message whose text contains the bot's name or an alias as a
whole word, in any letter case, is enqueued as directed without ever
invoking the fallback classifier, whatever the classifier service would
answer. -/
theorem C4_fast_trigger_directed (botUserId : String)
    (svc : String → Except String (List CBlock)) (st : GateState)
    (p : GroupMePayload)
    (h1 : p.sender_type ≠ "bot") (h2 : p.system = false)
    (h3 : fastTriggers (trimString (p.text.getD "")).data = true) :
    (webhookStep botUserId svc st p).queue = st.queue ++ [queueItemOf p] ∧
    (webhookStep botUserId svc st p).usedClassifier = false := by
  have hb' : (p.sender_type == "bot") = false := by simp [h1]
  have htrim : trimString (p.text.getD "") ≠ "" := by
    intro h0
    rw [h0] at h3
    exact absurd h3 (by decide)
  have hfalsy : textFalsy p.text = false := by
    cases hp : p.text with
    | none => exact absurd (by rw [hp]; decide) htrim
    | some s =>
      simp only [textFalsy]
      by_cases hse : s = ""
      · exact absurd (by rw [hp, hse]; decide) htrim
      · simp [hse]
  have hdrop : (textFalsy p.text && (imageUrlsOf p.attachments).isEmpty) =
      false := by simp [hfalsy]
  constructor <;> simp [webhookStep, hb', h2, hdrop, h3]

/-- C4 witness: `"Hey BoWdY, what's on the calendar?"` triggers the fast
path even with an always-failing classifier in scope. -/
theorem C4_witness :
    (webhookStep "40000000" classifierSvcFail emptyGateState
        payloadFastTrigger).queue =
      emptyGateState.queue ++ [queueItemOf payloadFastTrigger] ∧
    (webhookStep "40000000" classifierSvcFail emptyGateState
        payloadFastTrigger).usedClassifier = false :=
  C4_fast_trigger_directed "40000000" classifierSvcFail emptyGateState
    payloadFastTrigger (by decide) rfl (by decide)

/-! ### Claim C9 -/

/-- C9: when the classifier completion call fails (throws/times out), or
returns a malformed or non-text response, the gate treats the message as
not directed: the message is not enqueued, and every failure mode of the
classifier yields `false`. -/
theorem C9_classifier_failure_not_enqueued (botUserId : String)
    (svc : String → Except String (List CBlock)) (st : GateState)
    (p : GroupMePayload)
    (hsvc : ∀ q, match svc q with
      | Except.error _ => True
      | Except.ok c => parseClassifierResponse c = false)
    (h1 : p.sender_type ≠ "bot") (h2 : p.system = false)
    (h3 : fastTriggers (trimString (p.text.getD "")).data = false)
    (h4 : isBotMentioned p.attachments botUserId = false) :
    (webhookStep botUserId svc st p).queue = st.queue ∧
    (∀ (t s : String) (rm : List RecentMessage),
        classifyMessage svc t s rm = false) ∧
    parseClassifierResponse [] = false ∧
    (∀ rest : List CBlock,
        parseClassifierResponse (CBlock.other :: rest) = false) ∧
    (∀ (t : String) (rest : List CBlock), toUpperString (trimString t) ≠ "YES" →
        parseClassifierResponse (CBlock.text t :: rest) = false) := by
  have hb' : (p.sender_type == "bot") = false := by simp [h1]
  have hcls : ∀ (t s : String) (rm : List RecentMessage),
      classifyMessage svc t s rm = false := by
    intro t s rm
    unfold classifyMessage
    cases hq : svc (classifierPrompt t s rm) with
    | error e => rfl
    | ok c =>
      have hc := hsvc (classifierPrompt t s rm)
      rw [hq] at hc
      simpa using hc
  refine ⟨?_, hcls, rfl, fun rest => rfl, ?_⟩
  · by_cases hdrop :
        (textFalsy p.text && (imageUrlsOf p.attachments).isEmpty) = true
    · simp [webhookStep, hb', h2, hdrop]
    · have hdrop' : (textFalsy p.text &&
          (imageUrlsOf p.attachments).isEmpty) = false := by
        simpa using hdrop
      have hft0 : fastTriggers [] = false := by decide
      by_cases hr : trimString (p.text.getD "") = ""
      · simp [webhookStep, hb', h2, hdrop', h3, h4, hr, hft0]
      · simp [webhookStep, hb', h2, hdrop', h3, h4, hr, hcls]
  · intro t rest ht
    simp [parseClassifierResponse, ht]

/-- C9 witness: a plain chat line with an always-rejecting classifier is
not enqueued, and all classifier failure modes parse to `false`. -/
theorem C9_witness :
    (webhookStep "40000000" classifierSvcFail emptyGateState
        payloadPlainChat).queue = emptyGateState.queue ∧
    (∀ (t s : String) (rm : List RecentMessage),
        classifyMessage classifierSvcFail t s rm = false) ∧
    parseClassifierResponse [] = false ∧
    (∀ rest : List CBlock,
        parseClassifierResponse (CBlock.other :: rest) = false) ∧
    (∀ (t : String) (rest : List CBlock), toUpperString (trimString t) ≠ "YES" →
        parseClassifierResponse (CBlock.text t :: rest) = false) :=
  C9_classifier_failure_not_enqueued "40000000" classifierSvcFail
    emptyGateState payloadPlainChat (fun _ => trivial)
    (by decide) rfl (by decide) rfl

/-! ### Claim C7 -/

/-- C7: the drain loop emits each entry's sends contiguously in enqueue
order (the whole trace is the concatenation of the per-entry traces), and
when one entry's processing throws, the fixed apology is sent for that
entry and the entries after it are still processed in order. -/
theorem C7_queue_order_and_apology (env : QueueItem → EntryBehavior)
    (q1 : List QueueItem) (e : QueueItem) (q2 : List QueueItem)
    (msg : String)
    (hmsg : (env e).handlerResult = Except.error msg)
    (hap : (env e).apologyOk = true) :
    (∀ (env2 : QueueItem → EntryBehavior) (q : List QueueItem),
        (processQueueL env2 q).1 =
          (q.map (fun it => (processEntry (env2 it) it).1)).flatten) ∧
    (processQueueL env (q1 ++ e :: q2)).1 =
      (processQueueL env q1).1 ++ (processEntry (env e) e).1 ++
        (processQueueL env q2).1 ∧
    SendEv.apology e.text ∈ (processEntry (env e) e).1 := by
  have hflat : ∀ (env2 : QueueItem → EntryBehavior) (q : List QueueItem),
      (processQueueL env2 q).1 =
        (q.map (fun it => (processEntry (env2 it) it).1)).flatten := by
    intro env2 q
    induction q with
    | nil => rfl
    | cons a rest ih => simp [processQueueL, ih]
  refine ⟨hflat, ?_, ?_⟩
  · simp [hflat, List.append_assoc]
  · simp [processEntry, hmsg, hap]

/-- C7 witness: three concrete entries, the second of which rejects. -/
theorem C7_witness :
    (∀ (env2 : QueueItem → EntryBehavior) (q : List QueueItem),
        (processQueueL env2 q).1 =
          (q.map (fun it => (processEntry (env2 it) it).1)).flatten) ∧
    (processQueueL sampleEnv ([entryA] ++ entryB :: [entryC])).1 =
      (processQueueL sampleEnv [entryA]).1 ++
        (processEntry (sampleEnv entryB) entryB).1 ++
        (processQueueL sampleEnv [entryC]).1 ∧
    SendEv.apology entryB.text ∈ (processEntry (sampleEnv entryB) entryB).1 :=
  C7_queue_order_and_apology sampleEnv [entryA] entryB [entryC]
    "Error: handler blew up" rfl rfl

/-! ### Claim C8 -/

/-- C8: `getConversationHistory` returns at most 30 messages, the selected
rows are in chronological (oldest-to-newest) order of their timestamps, and
a user with no rows gets the empty list. -/
theorem C8_recent_bounded_chronological (db : List ConversationRow)
    (uid : String) :
    (getConversationHistory db uid).length ≤ 30 ∧
    List.Pairwise (fun a b => a.createdAt ≤ b.createdAt)
      (selectHistoryRows db uid) ∧
    ((∀ r ∈ db, r.userId ≠ uid) → getConversationHistory db uid = []) := by
  refine ⟨?_, ?_, ?_⟩
  · simp only [getConversationHistory, selectHistoryRows, List.length_map,
      List.length_reverse, List.length_take, MAX_HISTORY]
    omega
  · have hs : (List.mergeSort (db.filter (fun r => r.userId == uid))
        (fun a b => Nat.ble b.createdAt a.createdAt)).Pairwise
        (fun a b => Nat.ble b.createdAt a.createdAt) :=
      List.sorted_mergeSort
        (fun a b c hab hbc => by
          simp only [Nat.ble_eq] at hab hbc ⊢
          omega)
        (fun a b => by
          simp only [Nat.ble_eq, Bool.or_eq_true]
          omega)
        (db.filter (fun r => r.userId == uid))
    have htake := hs.sublist (List.take_sublist MAX_HISTORY _)
    have hdesc : (( (db.filter (fun r => r.userId == uid)).mergeSort
        (fun a b => Nat.ble b.createdAt a.createdAt)).take
          MAX_HISTORY).Pairwise
        (fun a b : ConversationRow => b.createdAt ≤ a.createdAt) :=
      htake.imp (fun h => by simpa [Nat.ble_eq] using h)
    simp only [selectHistoryRows]
    rw [List.pairwise_reverse]
    exact hdesc
  · intro h
    have hf : db.filter (fun r => r.userId == uid) = [] := by
      rw [List.filter_eq_nil_iff]
      intro r hr
      simpa using h r hr
    simp [getConversationHistory, selectHistoryRows, hf]

/-- C8 witness: a user with no rows in the sample table. -/
theorem C8_witness :
    (getConversationHistory sampleDb "user-3").length ≤ 30 ∧
    List.Pairwise (fun a b => a.createdAt ≤ b.createdAt)
      (selectHistoryRows sampleDb "user-3") ∧
    getConversationHistory sampleDb "user-3" = [] :=
  ⟨(C8_recent_bounded_chronological sampleDb "user-3").1,
   (C8_recent_bounded_chronological sampleDb "user-3").2.1,
   (C8_recent_bounded_chronological sampleDb "user-3").2.2 (by decide)⟩

end BowdyBot
